import Mathlib

/-!
Shallow embedding of the request-validation engine of `src/server.py`
(a client façade over the random.org JSON-RPC API).

Python values that flow through the validators are modelled by `PyV`
(ints, bools, strings, lists, string-keyed dicts, `None`).  Python
functions that can `raise` are modelled as `Except Err _` where each
constructor of `Err` corresponds to one distinct raise site / message
template of the source, carrying the values that the source interpolates
into the message.
-/

namespace RandomOrg

/-- A Python value as it appears in the validation layer of the server. -/
inductive PyV where
  | int : Int → PyV
  | bool : Bool → PyV
  | str : String → PyV
  /-- a Python float, modelled as the rational it denotes (the validation
  layer only compares floats, it never does float arithmetic). -/
  | float : ℚ → PyV
  | list : List PyV → PyV
  | dict : List (String × PyV) → PyV
  | noneV : PyV
deriving Repr

/-- Each constructor corresponds to one distinct raise site of the source. -/
inductive Err where
  /-- Raise site of `_validate_int_range`: value outside the closed interval. -/
  | rangeError (name : String) (lo hi : Int) (val : PyV)
  /-- Python `TypeError` (unsupported operand / not subscriptable / wrong type). -/
  | typeError (msg : String)
  /-- Python `IndexError` from list indexing. -/
  | indexError
  /-- Python `KeyError` from dict indexing. -/
  | keyError
  /-- Raise site of `_validate_bool`: value is not a bool. -/
  | notBool (name : String)
  /-- Raise site of `_validate_base`: value not one of 2, 8, 10, 16. -/
  | badBase (name : String)
  /-- Raise site of `_ensure_scalar_or_list`: list form whose length differs from `n`. -/
  | listLen (name : String) (n : Int)
  /-- sum-of-lengths outside `[1, 10000]` (both raise sites of the builder). -/
  | lengthsTotal (total : Int)
  /-- per-sequence `min > max` in `generate_integer_sequences`. -/
  | minGtMax (i : Nat) (mn mx : PyV)
  /-- feasibility: `replacement` list whose length differs from `n`. -/
  | replListLen
  /-- feasibility, scalar-`False` branch: domain smaller than length at index `i`. -/
  | infeasibleAll (i : Nat) (domain : Int) (len : PyV)
  /-- feasibility, per-sequence branch: domain smaller than length at index `i`. -/
  | infeasibleAt (i : Nat) (domain : Int) (len : PyV)
  /-- Raised when `pregeneratedRandomization` is not a dict. -/
  | pgrNotDict
  /-- Raised when `pregeneratedRandomization` has both `date` and `id`. -/
  | pgrBoth
  /-- Raised when `pregeneratedRandomization.date` is not a string. -/
  | pgrDateType
  /-- Raised when `pregeneratedRandomization.date` does not match `YYYY-MM-DD`. -/
  | pgrDateFormat
  /-- Raised when `pregeneratedRandomization.id` is not a string. -/
  | pgrIdType
  /-- Raised when `pregeneratedRandomization.id` has length outside `[1, 64]`. -/
  | pgrIdLen (len : Int)
  /-- Raised when `pregeneratedRandomization` has neither `date` nor `id`. -/
  | pgrMissing
  /-- inline `raise ValueError(...)` with a constant message. -/
  | valueErrorMsg (msg : String)
deriving Repr

/-- Numeric view of a Python value: `bool` is an `int` subclass in Python,
so `True`/`False` act as `1`/`0` in comparisons and arithmetic. -/
def asIntNum : PyV → Option Int
  | .int k => some k
  | .bool b => some (if b then 1 else 0)
  | _ => none

/-- Python `len(...)`: defined for lists, strings and dicts, `TypeError` otherwise. -/
def pyLen : PyV → Except Err Nat
  | .list l => .ok l.length
  | .str s => .ok s.length
  | .dict es => .ok es.length
  | _ => .error (.typeError "object has no len")

/-- Python `v[i]` for a non-negative integer index `i`. -/
def pyIndex : PyV → Nat → Except Err PyV
  | .list l, i =>
    match l[i]? with
    | some v => .ok v
    | none => .error .indexError
  | .str s, i =>
    match s.data[i]? with
    | some c => .ok (.str (String.mk [c]))
    | none => .error .indexError
  | .dict _, _ => .error .keyError
  | _, _ => .error (.typeError "object is not subscriptable")

/-- Python `a - b` on values flowing through the feasibility check. -/
def pySubV (a b : PyV) : Except Err Int :=
  match asIntNum a, asIntNum b with
  | some x, some y => .ok (x - y)
  | _, _ => .error (.typeError "unsupported operand for sub")

/-- Python `d < v` where `d` is an `int`. -/
def pyLtIntV (d : Int) (v : PyV) : Except Err Bool :=
  match asIntNum v with
  | some y => .ok (decide (d < y))
  | none => .error (.typeError "unsupported operand for lt")

/-- Python `a > b` on values reaching the `min > max` check. -/
def pyGtV (a b : PyV) : Except Err Bool :=
  match asIntNum a, asIntNum b with
  | some x, some y => .ok (decide (x > y))
  | _, _ => .error (.typeError "unsupported operand for gt")

/-- Python `int(v)` on values reaching `n * int(length_v)`. -/
def pyToInt (v : PyV) : Except Err Int :=
  match asIntNum v with
  | some k => .ok k
  | none => .error (.typeError "cannot convert to int")

/-- Python `sum(lengths)` over a list of validated numeric values. -/
def pySum : List PyV → Except Err Int
  | [] => .ok 0
  | v :: rest =>
    match asIntNum v with
    | some k =>
      match pySum rest with
      | .ok s => .ok (k + s)
      | .error e => .error e
    | none => .error (.typeError "unsupported operand for sum")

/-- Python dict lookup `es[k]` / membership `k in es` (keys are unique). -/
def dictGet (es : List (String × PyV)) (k : String) : Option PyV :=
  (es.find? (fun p => p.1 == k)).map (fun p => p.2)

/-- Python `str(v)` as it is used inside the error-mapper f-strings. -/
def pyStr : PyV → String
  | .int k => toString k
  | .bool b => if b then "True" else "False"
  | .str s => s
  | .float q => toString q
  | .list _ => "[...]"
  | .dict _ => "\x7b...\x7d"
  | .noneV => "None"

/-! ### Domain validators (`_validate_int_range`, `_validate_bool`, `_validate_base`) -/

/-- Embeds `_validate_int_range(val, name, lo, hi)`: Python evaluates `lo <= val <= hi`;
a non-numeric `val` makes that comparison raise `TypeError`. -/
def validate_int_range (val : PyV) (name : String) (lo hi : Int) : Except Err Unit :=
  match asIntNum val with
  | some k =>
    if lo ≤ k ∧ k ≤ hi then .ok () else .error (.rangeError name lo hi val)
  | none => .error (.typeError "comparison unsupported")

/-- Embeds `_validate_bool(val, name)`: `isinstance(val, bool)`. -/
def validate_bool (val : PyV) (name : String) : Except Err Unit :=
  match val with
  | .bool _ => .ok ()
  | _ => .error (.notBool name)

/-- Embeds `_validate_base(val, name)`: `val in (2, 8, 10, 16)` (Python `in` on a tuple
uses `==`, under which `True == 1` and `False == 0`, neither in the tuple). -/
def validate_base (val : PyV) (name : String) : Except Err Unit :=
  match asIntNum val with
  | some k => if k = 2 ∨ k = 8 ∨ k = 10 ∨ k = 16 then .ok () else .error (.badBase name)
  | none => .error (.badBase name)

/-! ### Field Normalizer (`_ensure_scalar_or_list`) -/

/-- The `for i, v in enumerate(value): list_item_validator(v, f"name[i]")` loop. -/
def itemLoop (f : PyV → String → Except Err Unit) (name : String) :
    Nat → List PyV → Except Err Unit
  | _, [] => .ok ()
  | i, v :: rest => do
    f v (name ++ "[" ++ toString i ++ "]")
    itemLoop f name (i + 1) rest

/-- Embeds `_ensure_scalar_or_list(name, value, n, scalar_validator, list_item_validator)`.
Returns `(is_scalar, normalized_value)`: the scalar unchanged, or the list
unchanged after validating its length and every element. -/
def ensure_scalar_or_list (name : String) (value : PyV) (n : Int)
    (scalar_validator list_item_validator : Option (PyV → String → Except Err Unit)) :
    Except Err (Bool × PyV) :=
  match value with
  | .list l =>
    if (l.length : Int) ≠ n then .error (.listLen name n)
    else
      match list_item_validator with
      | some f =>
        match itemLoop f name 0 l with
        | .ok _ => .ok (false, .list l)
        | .error e => .error e
      | none => .ok (false, .list l)
  | v =>
    match scalar_validator with
    | some f =>
      match f v name with
      | .ok _ => .ok (true, v)
      | .error e => .error e
    | none => .ok (true, v)

/-! ### Feasibility Checker (`_validate_no_replacement_feasible`) -/

/-- Scalar-`False` branch: `for i in range(n): domain = MAX[i] - MIN[i] + 1;
if domain < L[i]: raise`. -/
def feasAll (L MIN MAX : PyV) : List Nat → Except Err Unit
  | [] => .ok ()
  | i :: rest => do
    let mx ← pyIndex MAX i
    let mn ← pyIndex MIN i
    let d ← pySubV mx mn
    let li ← pyIndex L i
    let lt ← pyLtIntV (d + 1) li
    if lt then .error (.infeasibleAll i (d + 1) li)
    else feasAll L MIN MAX rest

/-- Per-sequence branch: `for i in range(n): if R[i] is False: ...` (note the
Python identity test fires only on the boolean `False` itself). -/
def feasSome (L MIN MAX R : PyV) : List Nat → Except Err Unit
  | [] => .ok ()
  | i :: rest => do
    let ri ← pyIndex R i
    match ri with
    | .bool false => do
      let mx ← pyIndex MAX i
      let mn ← pyIndex MIN i
      let d ← pySubV mx mn
      let li ← pyIndex L i
      let lt ← pyLtIntV (d + 1) li
      if lt then .error (.infeasibleAt i (d + 1) li)
      else feasSome L MIN MAX R rest
    | _ => feasSome L MIN MAX R rest

/-- Embeds `_validate_no_replacement_feasible(is_uniform, length, min_value, max_value,
replacement, n)`.  Mirrors the source exactly: when `is_uniform` (which the
caller passes as "length is scalar"), ALL four fields are wrapped as
`[field] * n` — including any that are already lists. -/
def validate_no_replacement_feasible (is_uniform : Bool)
    (length min_value max_value replacement : PyV) (n : Nat) : Except Err Unit :=
  let L := if is_uniform then PyV.list (List.replicate n length) else length
  let MIN := if is_uniform then PyV.list (List.replicate n min_value) else min_value
  let MAX := if is_uniform then PyV.list (List.replicate n max_value) else max_value
  let R := if is_uniform then PyV.list (List.replicate n replacement) else replacement
  match R with
  | .bool true => .ok ()
  | .bool false => feasAll L MIN MAX (List.range n)
  | r =>
    match pyLen r with
    | .ok len => if len ≠ n then .error .replListLen else feasSome L MIN MAX r (List.range n)
    | .error e => .error e

/-! ### Randomization-Spec Validator (`_validate_pregenerated_randomization`) -/

/-- Embeds `re.fullmatch(r"\d\x7b4\x7d-\d\x7b2\x7d-\d\x7b2\x7d", val)`: ten characters,
digits in the year/month/day positions, dashes between. -/
def isYMD (s : String) : Bool :=
  match s.data with
  | [a, b, c, d, e, f, g, h, i, j] =>
    a.isDigit && b.isDigit && c.isDigit && d.isDigit && e = '-' &&
    f.isDigit && g.isDigit && h = '-' && i.isDigit && j.isDigit
  | _ => false

/-- Embeds `_validate_pregenerated_randomization(pgr)`: `None` passes through; a dict
must carry exactly one of `date` (string matching `YYYY-MM-DD`) or `id`
(string of length 1..64); the returned dict carries only that one entry. -/
def validate_pregenerated_randomization :
    Option PyV → Except Err (Option (List (String × PyV)))
  | none => .ok none
  | some (.dict es) =>
    match dictGet es "date", dictGet es "id" with
    | some _, some _ => .error .pgrBoth
    | some dv, none =>
      match dv with
      | .str s => if isYMD s then .ok (some [("date", .str s)]) else .error .pgrDateFormat
      | _ => .error .pgrDateType
    | none, some iv =>
      match iv with
      | .str s =>
        if 1 ≤ (s.length : Int) ∧ (s.length : Int) ≤ 64 then .ok (some [("id", .str s)])
        else .error (.pgrIdLen s.length)
      | _ => .error .pgrIdType
    | none, none => .error .pgrMissing
  | some _ => .error .pgrNotDict

/-! ### Error Mapper (`_map_random_org_error`) -/

/-- The `hints` dict of `_map_random_org_error`. -/
def errorHints (code : Int) : Option String :=
  if code = 400 then some "请求参数不合法（400）。请检查 n/length/min/max/base 等是否在文档要求的范围内。"
  else if code = 401 then some "认证失败（401）。请检查 RANDOM_ORG_API_KEY 是否正确、是否已在 .env 中加载。"
  else if code = 402 then some "额度不足（402）。bitsLeft 或 requestsLeft 用尽，请更换/升级 API Key 或稍后再试。"
  else if code = 403 then some "权限受限（403）。可能是 Key 权限不足或被限制来源。"
  else if code = 413 then some "请求过大（413）。请减小 n 或 length 总和，或拆分请求。"
  else if code = 429 then some "请求过于频繁（429）。请按照 advisoryDelay 做退避重试。"
  else if code = 503 then some "服务暂不可用（503）。请稍后重试；可实现指数退避。"
  else if code = -32600 then some "JSON-RPC 请求格式错误（-32600）。请检查 method/params/id 字段。"
  else if code = -32601 then some "JSON-RPC 未知方法（-32601）。method 名称是否正确？"
  else if code = -32602 then some "JSON-RPC 参数非法（-32602）。请检查各字段类型与取值范围。"
  else if code = -32603 then some "JSON-RPC 内部错误（-32603）。请稍后重试或联系官方支持。"
  else none

/-- The fallback f-string of `_map_random_org_error`. -/
def fallbackMsg (code : Int) (message : String) : String :=
  "调用失败（代码：" ++ toString code ++ "）。原始信息：" ++ message

/-- Clause appended when `data` carries `advisoryDelay`. -/
def advisoryClause (v : PyV) : String := "建议等待 " ++ pyStr v ++ " ms 后再试。"

/-- Clause appended when `data` carries `bitsLeft`. -/
def bitsLeftClause (v : PyV) : String := "当前 bitsLeft=" ++ pyStr v ++ "。"

/-- Clause appended when `data` carries `requestsLeft`. -/
def requestsLeftClause (v : PyV) : String := "当前 requestsLeft=" ++ pyStr v ++ "。"

/-- Embeds `_map_random_org_error(code, message, data)`: looks up a known hint (else
the fallback), then — when `data` is a non-empty dict (Python truthiness) —
appends one clause per present diagnostic key, in the fixed order
`advisoryDelay`, `bitsLeft`, `requestsLeft`, and joins everything with spaces. -/
def map_random_org_error (code : Int) (message : String)
    (data : Option (List (String × PyV))) : String :=
  let base_msg := (errorHints code).getD (fallbackMsg code message)
  let extra : List String :=
    match data with
    | some es =>
      if es.isEmpty then []
      else
        (match dictGet es "advisoryDelay" with | some v => [advisoryClause v] | none => [])
          ++ (match dictGet es "bitsLeft" with | some v => [bitsLeftClause v] | none => [])
          ++ (match dictGet es "requestsLeft" with | some v => [requestsLeftClause v] | none => [])
    | none => []
  String.intercalate " " (base_msg :: extra)

/-! ### Operation Builders: validation pipelines

Each `*_validate` function is the part of the tool body that precedes the
`_random_org_rpc` call; it returns the validated `pregeneratedRandomization`
(the only value validation produces — every other field is returned
unchanged by `_ensure_scalar_or_list`). -/

/-- The validated randomization spec, as every pipeline returns it. -/
abbrev Pgr := Option (List (String × PyV))

/-- Embeds `_as_list(val, is_scalar)` of `generate_integer_sequences`, viewed as a
Lean list (when not scalar, `val` is a list by construction). -/
def asPyList : PyV → List PyV
  | .list l => l
  | _ => []

/-- The `for i, (mn, mx) in enumerate(zip(min_list, max_list))` check. -/
def minMaxLoop : Nat → List (PyV × PyV) → Except Err Unit
  | _, [] => .ok ()
  | i, p :: rest => do
    let b ← pyGtV p.1 p.2
    if b then throw (Err.minGtMax i p.1 p.2) else minMaxLoop (i + 1) rest

/-- Validation pipeline of `generate_integers` (lines 246-258): plain interval
checks on `n`, `min_value`, `max_value`, `min <= max`, `base` enumeration, then
the randomization spec.  `replacement` is never inspected. -/
def generate_integers_validate (n min_value max_value : Int) (replacement : PyV)
    (base : Int) (pregeneratedRandomization : Option PyV) : Except Err Pgr := do
  if ¬ (1 ≤ n ∧ n ≤ 10000) then throw (Err.valueErrorMsg "n 必须在 [1, 1e4] 范围内")
  if ¬ (-1000000000 ≤ min_value ∧ min_value ≤ 1000000000) then
    throw (Err.valueErrorMsg "min 必须在 [-1e9, 1e9] 范围内")
  if ¬ (-1000000000 ≤ max_value ∧ max_value ≤ 1000000000) then
    throw (Err.valueErrorMsg "max 必须在 [-1e9, 1e9] 范围内")
  if min_value > max_value then throw (Err.valueErrorMsg "min 不能大于 max")
  if ¬ (base = 2 ∨ base = 8 ∨ base = 10 ∨ base = 16) then
    throw (Err.valueErrorMsg "base 只允许为 2、8、10、16")
  let _ := replacement
  validate_pregenerated_randomization pregeneratedRandomization

/-- Validation pipeline of `generate_integer_sequences` (lines 305-356). -/
def generate_integer_sequences_validate (n : Int)
    (length min_value max_value replacement base : PyV)
    (pregeneratedRandomization : Option PyV) : Except Err Pgr := do
  validate_int_range (.int n) "n" 1 1000
  let rLen ← ensure_scalar_or_list "length" length n
    (some fun v nm => validate_int_range v nm 1 10000)
    (some fun v nm => validate_int_range v nm 1 10000)
  if rLen.1 then do
    let lv ← pyToInt rLen.2
    let total := n * lv
    if ¬ (1 ≤ total ∧ total ≤ 10000) then throw (Err.lengthsTotal total)
  else do
    let s ← pySum (asPyList rLen.2)
    if ¬ (1 ≤ s ∧ s ≤ 10000) then throw (Err.lengthsTotal s)
  let rMin ← ensure_scalar_or_list "min" min_value n
    (some fun v nm => validate_int_range v nm (-1000000000) 1000000000)
    (some fun v nm => validate_int_range v nm (-1000000000) 1000000000)
  let rMax ← ensure_scalar_or_list "max" max_value n
    (some fun v nm => validate_int_range v nm (-1000000000) 1000000000)
    (some fun v nm => validate_int_range v nm (-1000000000) 1000000000)
  let min_list := if rMin.1 then List.replicate n.toNat rMin.2 else asPyList rMin.2
  let max_list := if rMax.1 then List.replicate n.toNat rMax.2 else asPyList rMax.2
  minMaxLoop 0 (min_list.zip max_list)
  let rRep ← ensure_scalar_or_list "replacement" replacement n
    (some validate_bool) (some validate_bool)
  let _ ← ensure_scalar_or_list "base" base n (some validate_base) (some validate_base)
  let pgr ← validate_pregenerated_randomization pregeneratedRandomization
  validate_no_replacement_feasible rLen.1 rLen.2 rMin.2 rMax.2 rRep.2 n.toNat
  pure pgr

/-- Validation pipeline of `generate_decimal_fractions` (lines 401-405). -/
def generate_decimal_fractions_validate (n decimalPlaces : Int) (replacement : PyV)
    (pregeneratedRandomization : Option PyV) : Except Err Pgr := do
  validate_int_range (.int n) "n" 1 10000
  validate_int_range (.int decimalPlaces) "decimalPlaces" 1 14
  validate_bool replacement "replacement"
  validate_pregenerated_randomization pregeneratedRandomization

/-- Validation pipeline of `generate_gaussians` (lines 451-460); `mean` and
`standardDeviation` are floats in the source, modelled as rationals (the
pipeline only compares them, it never does float arithmetic). -/
def generate_gaussians_validate (n : Int) (mean standardDeviation : ℚ)
    (significantDigits : Int) (pregeneratedRandomization : Option PyV) :
    Except Err Pgr := do
  validate_int_range (.int n) "n" 1 10000
  if ¬ (-1000000 ≤ mean ∧ mean ≤ 1000000) then
    throw (Err.valueErrorMsg "mean 必须在 [-1e6, 1e6] 范围内")
  if ¬ (-1000000 ≤ standardDeviation ∧ standardDeviation ≤ 1000000) then
    throw (Err.valueErrorMsg "standardDeviation 必须在 [-1e6, 1e6] 范围内")
  validate_int_range (.int significantDigits) "significantDigits" 2 14
  validate_pregenerated_randomization pregeneratedRandomization

/-- Validation pipeline of `generate_strings` (lines 508-516). -/
def generate_strings_validate (n length : Int) (characters replacement : PyV)
    (pregeneratedRandomization : Option PyV) : Except Err Pgr := do
  validate_int_range (.int n) "n" 1 10000
  validate_int_range (.int length) "length" 1 32
  match characters with
  | .str s =>
    if ¬ (1 ≤ (s.length : Int) ∧ (s.length : Int) ≤ 128) then
      throw (Err.valueErrorMsg "characters 的长度必须在 [1, 128] 范围内")
  | _ => throw (Err.typeError "characters 必须是字符串")
  validate_bool replacement "replacement"
  validate_pregenerated_randomization pregeneratedRandomization

/-- Validation pipeline of `generate_uuids` (lines 558-560). -/
def generate_uuids_validate (n : Int) (pregeneratedRandomization : Option PyV) :
    Except Err Pgr := do
  validate_int_range (.int n) "n" 1 1000
  validate_pregenerated_randomization pregeneratedRandomization

/-- Validation pipeline of `generate_blobs` (lines 599-609). -/
def generate_blobs_validate (n size : Int) (format : String)
    (pregeneratedRandomization : Option PyV) : Except Err Pgr := do
  validate_int_range (.int n) "n" 1 100
  validate_int_range (.int size) "size" 1 1048576
  if size % 8 ≠ 0 then throw (Err.valueErrorMsg "size 必须能被 8 整除（按位数计数）")
  if n * size > 1048576 then
    throw (Err.valueErrorMsg "总请求大小 n*size 不得超过 1,048,576 bits (128 KiB)")
  if ¬ (format = "base64" ∨ format = "hex") then
    throw (Err.valueErrorMsg "format 必须是 base64 或 hex")
  validate_pregenerated_randomization pregeneratedRandomization

/-! ### Operation Builders: full tools over an abstract RPC function -/

/-- The `_random_org_rpc` call, abstracted: method name and params to result. -/
abbrev RpcFn := String → List (String × PyV) → Except Err PyV

/-- The conditional `params["pregeneratedRandomization"] = pgr` insertion. -/
def pgrParam : Pgr → List (String × PyV)
  | some es => [("pregeneratedRandomization", .dict es)]
  | none => []

/-- The output field `"pregeneratedRandomization": pgr or None`. -/
def pgrOut : Pgr → PyV
  | some es => .dict es
  | none => .noneV

/-- Python `result["random"]` / `result["random"]["data"]` (raises on absence). -/
def pyGetKey (v : PyV) (k : String) : Except Err PyV :=
  match v with
  | .dict es =>
    match dictGet es k with
    | some x => .ok x
    | none => .error .keyError
  | _ => .error (.typeError "object is not subscriptable")

/-- Python `result.get(k)` (defaults to `None`). -/
def resGet (v : PyV) (k : String) : PyV :=
  match v with
  | .dict es => (dictGet es k).getD .noneV
  | _ => .noneV

/-- The quota fields every tool copies from the RPC result. -/
def quotaFields (result : PyV) : List (String × PyV) :=
  [("bitsUsed", resGet result "bitsUsed"), ("bitsLeft", resGet result "bitsLeft"),
   ("requestsLeft", resGet result "requestsLeft"),
   ("advisoryDelay", resGet result "advisoryDelay")]

/-- Tool `generate_integers`: validate, call the RPC, reshape the result. -/
def generate_integers_tool (rpc : RpcFn) (n min_value max_value : Int)
    (replacement : PyV) (base : Int) (pregeneratedRandomization : Option PyV) :
    Except Err PyV := do
  let pgr ← generate_integers_validate n min_value max_value replacement base
    pregeneratedRandomization
  let params := [("n", PyV.int n), ("min", PyV.int min_value), ("max", PyV.int max_value),
    ("replacement", replacement), ("base", PyV.int base)] ++ pgrParam pgr
  let result ← rpc "generateIntegers" params
  let rand ← pyGetKey result "random"
  let dataValues ← pyGetKey rand "data"
  pure (.dict ([("values", dataValues), ("base", .int base), ("replacement", replacement),
    ("pregeneratedRandomization", pgrOut pgr)] ++ quotaFields result))

/-- Tool `generate_integer_sequences`: validate, call the RPC, reshape the result. -/
def generate_integer_sequences_tool (rpc : RpcFn) (n : Int)
    (length min_value max_value replacement base : PyV)
    (pregeneratedRandomization : Option PyV) : Except Err PyV := do
  let pgr ← generate_integer_sequences_validate n length min_value max_value
    replacement base pregeneratedRandomization
  let params := [("n", PyV.int n), ("length", length), ("min", min_value),
    ("max", max_value), ("replacement", replacement), ("base", base)] ++ pgrParam pgr
  let result ← rpc "generateIntegerSequences" params
  let rand ← pyGetKey result "random"
  let dataValues ← pyGetKey rand "data"
  pure (.dict ([("sequences", dataValues), ("base", base), ("replacement", replacement),
    ("pregeneratedRandomization", pgrOut pgr)] ++ quotaFields result))

/-- Tool `generate_decimal_fractions`: validate, call the RPC, reshape the result. -/
def generate_decimal_fractions_tool (rpc : RpcFn) (n decimalPlaces : Int)
    (replacement : PyV) (pregeneratedRandomization : Option PyV) : Except Err PyV := do
  let pgr ← generate_decimal_fractions_validate n decimalPlaces replacement
    pregeneratedRandomization
  let params := [("n", PyV.int n), ("decimalPlaces", PyV.int decimalPlaces),
    ("replacement", replacement)] ++ pgrParam pgr
  let result ← rpc "generateDecimalFractions" params
  let rand ← pyGetKey result "random"
  let dataValues ← pyGetKey rand "data"
  pure (.dict ([("fractions", dataValues), ("decimalPlaces", .int decimalPlaces),
    ("replacement", replacement), ("pregeneratedRandomization", pgrOut pgr)]
    ++ quotaFields result))

/-- Tool `generate_gaussians`: validate, call the RPC, reshape the result. -/
def generate_gaussians_tool (rpc : RpcFn) (n : Int) (mean standardDeviation : ℚ)
    (significantDigits : Int) (pregeneratedRandomization : Option PyV) :
    Except Err PyV := do
  let pgr ← generate_gaussians_validate n mean standardDeviation significantDigits
    pregeneratedRandomization
  let params := [("n", PyV.int n), ("mean", PyV.float mean),
    ("standardDeviation", PyV.float standardDeviation),
    ("significantDigits", PyV.int significantDigits)] ++ pgrParam pgr
  let result ← rpc "generateGaussians" params
  let rand ← pyGetKey result "random"
  let dataValues ← pyGetKey rand "data"
  pure (.dict ([("values", dataValues), ("mean", .float mean),
    ("standardDeviation", .float standardDeviation),
    ("significantDigits", .int significantDigits),
    ("pregeneratedRandomization", pgrOut pgr)] ++ quotaFields result))

/-- Tool `generate_strings`: validate, call the RPC, reshape the result. -/
def generate_strings_tool (rpc : RpcFn) (n length : Int) (characters replacement : PyV)
    (pregeneratedRandomization : Option PyV) : Except Err PyV := do
  let pgr ← generate_strings_validate n length characters replacement
    pregeneratedRandomization
  let params := [("n", PyV.int n), ("length", PyV.int length),
    ("characters", characters), ("replacement", replacement)] ++ pgrParam pgr
  let result ← rpc "generateStrings" params
  let rand ← pyGetKey result "random"
  let dataValues ← pyGetKey rand "data"
  pure (.dict ([("strings", dataValues), ("length", .int length),
    ("characters", characters), ("replacement", replacement),
    ("pregeneratedRandomization", pgrOut pgr)] ++ quotaFields result))

/-- Tool `generate_uuids`: validate, call the RPC, reshape the result. -/
def generate_uuids_tool (rpc : RpcFn) (n : Int)
    (pregeneratedRandomization : Option PyV) : Except Err PyV := do
  let pgr ← generate_uuids_validate n pregeneratedRandomization
  let params := [("n", PyV.int n)] ++ pgrParam pgr
  let result ← rpc "generateUUIDs" params
  let rand ← pyGetKey result "random"
  let dataValues ← pyGetKey rand "data"
  pure (.dict ([("uuids", dataValues), ("pregeneratedRandomization", pgrOut pgr)]
    ++ quotaFields result))

/-- Tool `generate_blobs`: validate, call the RPC, reshape the result. -/
def generate_blobs_tool (rpc : RpcFn) (n size : Int) (format : String)
    (pregeneratedRandomization : Option PyV) : Except Err PyV := do
  let pgr ← generate_blobs_validate n size format pregeneratedRandomization
  let params := [("n", PyV.int n), ("size", PyV.int size), ("format", PyV.str format)]
    ++ pgrParam pgr
  let result ← rpc "generateBlobs" params
  let rand ← pyGetKey result "random"
  let dataValues ← pyGetKey rand "data"
  pure (.dict ([("blobs", dataValues), ("size", .int size), ("format", .str format),
    ("pregeneratedRandomization", pgrOut pgr)] ++ quotaFields result))

/-! ## Helper lemmas -/

@[simp] theorem except_bind_ok (a : α) (f : α → Except Err β) :
    (bind (Except.ok a) f : Except Err β) = f a := rfl

@[simp] theorem except_bind_err (e : Err) (f : α → Except Err β) :
    (bind (Except.error e) f : Except Err β) = Except.error e := rfl

@[simp] theorem except_pure (a : α) : (pure a : Except Err α) = Except.ok a := rfl

theorem pyIndex_replicate {n i : Nat} (v : PyV) (h : i < n) :
    pyIndex (.list (List.replicate n v)) i = .ok v := by
  simp [pyIndex, List.getElem?_replicate, h]

theorem itemLoop_ok {l : List PyV} {f : PyV → String → Except Err Unit} {name : String}
    (h : ∀ x ∈ l, ∀ nm, f x nm = .ok ()) : ∀ i, itemLoop f name i l = .ok () := by
  induction l with
  | nil => intro i; rfl
  | cons x rest ih =>
    intro i
    simp only [itemLoop, h x (List.mem_cons_self x rest), except_bind_ok]
    exact ih (fun y hy nm => h y (List.mem_cons_of_mem x hy) nm) (i + 1)

theorem feasSome_replicate_not_false {L MIN MAX : PyV} {v : PyV} {n : Nat}
    (hv : v ≠ .bool false) :
    ∀ idxs : List Nat, (∀ i ∈ idxs, i < n) →
      feasSome L MIN MAX (.list (List.replicate n v)) idxs = .ok () := by
  intro idxs
  induction idxs with
  | nil => intro _; rfl
  | cons i rest ih =>
    intro h
    have hi : i < n := h i (List.mem_cons_self i rest)
    have hrest := ih (fun j hj => h j (List.mem_cons_of_mem i hj))
    simp only [feasSome, pyIndex_replicate v hi, except_bind_ok]
    cases v with
    | bool b => cases b with
      | false => exact absurd rfl hv
      | true => exact hrest
    | int k => exact hrest
    | str s => exact hrest
    | float q => exact hrest
    | list l => exact hrest
    | dict es => exact hrest
    | noneV => exact hrest

theorem minMaxLoop_replicate_ok {a b : PyV} (h : pyGtV a b = .ok false) :
    ∀ (k i : Nat), minMaxLoop i (List.replicate k (a, b)) = .ok () := by
  intro k
  induction k with
  | zero => intro i; rfl
  | succ m ih =>
    intro i
    simp only [List.replicate_succ, minMaxLoop, h, except_bind_ok, if_neg]
    exact ih (i + 1)

theorem feasSome_replicate_false_ok {lv mnv mxv : Int} {n : Nat}
    (h : ¬ (mxv - mnv + 1 < lv)) :
    ∀ idxs : List Nat, (∀ i ∈ idxs, i < n) →
      feasSome (.list (List.replicate n (.int lv))) (.list (List.replicate n (.int mnv)))
        (.list (List.replicate n (.int mxv))) (.list (List.replicate n (.bool false)))
        idxs = .ok () := by
  intro idxs
  induction idxs with
  | nil => intro _; rfl
  | cons i rest ih =>
    intro hmem
    have hi : i < n := hmem i (List.mem_cons_self i rest)
    simp only [feasSome, pyIndex_replicate _ hi, except_bind_ok, pySubV, asIntNum,
      pyLtIntV]
    rw [if_neg (by simpa using h)]
    exact ih (fun j hj => hmem j (List.mem_cons_of_mem i hj))

theorem feasSome_replicate_false_err {lv mnv mxv : Int} {n : Nat}
    (h : mxv - mnv + 1 < lv) (hn : 0 < n) :
    feasSome (.list (List.replicate n (.int lv))) (.list (List.replicate n (.int mnv)))
      (.list (List.replicate n (.int mxv))) (.list (List.replicate n (.bool false)))
      (List.range n) = .error (.infeasibleAt 0 (mxv - mnv + 1) (.int lv)) := by
  obtain ⟨m, rfl⟩ : ∃ m, n = m + 1 := ⟨n - 1, by omega⟩
  rw [List.range_succ_eq_map]
  simp only [feasSome, pyIndex_replicate _ (Nat.succ_pos m), except_bind_ok, pySubV,
    asIntNum, pyLtIntV]
  rw [if_pos (by simpa using h)]

/-! ## Claims -/

/-- Claim C2. When the `replacement` argument is the scalar boolean `true`, the
feasibility check of `generate_integer_sequences` performs no per-sequence
domain-size check and never raises: for every combination of scalar or
per-sequence lengths, minimums and maximums (and either uniform flag), it
returns success. -/
theorem replacement_true_skips_feasibility (u : Bool) (length mn mx : PyV) (n : Nat) :
    validate_no_replacement_feasible u length mn mx (.bool true) n = .ok () := by
  cases u with
  | false => rfl
  | true =>
    simp only [validate_no_replacement_feasible, if_true]
    have hlen : pyLen (.list (List.replicate n (PyV.bool true))) = .ok n := by
      simp [pyLen]
    simp only [hlen]
    rw [if_neg (by simp)]
    exact feasSome_replicate_not_false (by simp) (List.range n)
      (fun i hi => List.mem_range.mp hi)

/-- Claim C8. `_ensure_scalar_or_list` treats a scalar `v` accepted by the
validator and the list `[v] * n` equivalently: the scalar is returned
unchanged, the list is returned unchanged element for element (every element
being `v`), and a list whose length differs from `n` fails with the shape
error before any item validator is applied (for every choice of validators). -/
theorem ensure_scalar_or_list_spec :
    (∀ (name : String) (v : PyV) (n : Int) (f : PyV → String → Except Err Unit),
      (∀ l, v ≠ .list l) → (∀ nm, f v nm = .ok ()) →
      ensure_scalar_or_list name v n (some f) (some f) = .ok (true, v)) ∧
    (∀ (name : String) (v : PyV) (n : Nat) (f : PyV → String → Except Err Unit),
      (∀ nm, f v nm = .ok ()) →
      ensure_scalar_or_list name (.list (List.replicate n v)) (n : Int) (some f) (some f)
        = .ok (false, .list (List.replicate n v))) ∧
    (∀ (name : String) (l : List PyV) (n : Int)
      (f g : Option (PyV → String → Except Err Unit)),
      (l.length : Int) ≠ n →
      ensure_scalar_or_list name (.list l) n f g = .error (.listLen name n)) := by
  refine ⟨?_, ?_, ?_⟩
  · intro name v n f hv hf
    cases v with
    | list l => exact absurd rfl (hv l)
    | int k => simp [ensure_scalar_or_list, hf]
    | bool b => simp [ensure_scalar_or_list, hf]
    | str s => simp [ensure_scalar_or_list, hf]
    | float q => simp [ensure_scalar_or_list, hf]
    | dict es => simp [ensure_scalar_or_list, hf]
    | noneV => simp [ensure_scalar_or_list, hf]
  · intro name v n f hf
    have hloop : itemLoop f name 0 (List.replicate n v) = .ok () :=
      itemLoop_ok (fun x hx nm => by rw [List.eq_of_mem_replicate hx]; exact hf nm) 0
    simp [ensure_scalar_or_list, hloop]
  · intro name l n f g h
    simp [ensure_scalar_or_list, h]

/-- Witness for C8 at concrete inputs: scalar `5` with the `[1, 10000]` range
validator, its 3-fold replication, and a length-2 list against `n = 3`. -/
theorem ensure_scalar_or_list_spec_witness :
    ensure_scalar_or_list "length" (.int 5) 3
      (some fun v nm => validate_int_range v nm 1 10000)
      (some fun v nm => validate_int_range v nm 1 10000) = .ok (true, .int 5) ∧
    ensure_scalar_or_list "length" (.list (List.replicate 3 (.int 5))) 3
      (some fun v nm => validate_int_range v nm 1 10000)
      (some fun v nm => validate_int_range v nm 1 10000)
      = .ok (false, .list (List.replicate 3 (.int 5))) ∧
    ensure_scalar_or_list "length" (.list [.int 5, .int 5]) 3
      (some fun v nm => validate_int_range v nm 1 10000)
      (some fun v nm => validate_int_range v nm 1 10000)
      = .error (.listLen "length" 3) := by
  refine ⟨?_, ?_, ?_⟩
  · exact ensure_scalar_or_list_spec.1 "length" (.int 5) 3 _ (by intro l h; cases h)
      (fun nm => rfl)
  · exact ensure_scalar_or_list_spec.2.1 "length" (.int 5) 3 _ (fun nm => rfl)
  · exact ensure_scalar_or_list_spec.2.2 "length" [.int 5, .int 5] 3 _ _ (by decide)

/-- Claim C5. The randomization-spec validator accepts `None` unchanged; a dict
fails when both `date` and `id` are present, fails when neither is present,
fails when `date` is not a string matching the `YYYY-MM-DD` digit pattern, and
fails when `id` is not a string of length 1..64; in particular
`date = "2024-06-01"` passes, `date` plus `id = "x"` fails, the empty `id`
fails, a 64-character `id` passes, and a 65-character `id` fails. -/
theorem pregenerated_randomization_spec :
    (validate_pregenerated_randomization none = .ok none) ∧
    (∀ es : List (String × PyV), (dictGet es "date").isSome → (dictGet es "id").isSome →
      validate_pregenerated_randomization (some (.dict es)) = .error .pgrBoth) ∧
    (∀ es : List (String × PyV), dictGet es "date" = none → dictGet es "id" = none →
      validate_pregenerated_randomization (some (.dict es)) = .error .pgrMissing) ∧
    (∀ s : String, isYMD s = false →
      validate_pregenerated_randomization (some (.dict [("date", .str s)]))
        = .error .pgrDateFormat) ∧
    (∀ v : PyV, (∀ s, v ≠ .str s) →
      validate_pregenerated_randomization (some (.dict [("date", v)]))
        = .error .pgrDateType) ∧
    (∀ s : String, ¬ (1 ≤ (s.length : Int) ∧ (s.length : Int) ≤ 64) →
      validate_pregenerated_randomization (some (.dict [("id", .str s)]))
        = .error (.pgrIdLen s.length)) ∧
    (validate_pregenerated_randomization (some (.dict [("date", .str "2024-06-01")]))
      = .ok (some [("date", .str "2024-06-01")])) ∧
    (validate_pregenerated_randomization
        (some (.dict [("date", .str "2024-06-01"), ("id", .str "x")]))
      = .error .pgrBoth) ∧
    (validate_pregenerated_randomization (some (.dict [("id", .str "")]))
      = .error (.pgrIdLen 0)) ∧
    (validate_pregenerated_randomization
        (some (.dict [("id", .str (String.mk (List.replicate 64 'x')))]))
      = .ok (some [("id", .str (String.mk (List.replicate 64 'x')))])) ∧
    (validate_pregenerated_randomization
        (some (.dict [("id", .str (String.mk (List.replicate 65 'x')))]))
      = .error (.pgrIdLen 65)) := by
  refine ⟨rfl, ?_, ?_, ?_, ?_, ?_, rfl, rfl, rfl, rfl, rfl⟩
  · intro es hd hi
    obtain ⟨d, hd⟩ := Option.isSome_iff_exists.mp hd
    obtain ⟨i, hi⟩ := Option.isSome_iff_exists.mp hi
    simp [validate_pregenerated_randomization, hd, hi]
  · intro es hd hi
    simp [validate_pregenerated_randomization, hd, hi]
  · intro s hs
    simp [validate_pregenerated_randomization, dictGet, hs]
  · intro v hv
    cases v with
    | str s => exact absurd rfl (hv s)
    | int k => simp [validate_pregenerated_randomization, dictGet]
    | bool b => simp [validate_pregenerated_randomization, dictGet]
    | float q => simp [validate_pregenerated_randomization, dictGet]
    | list l => simp [validate_pregenerated_randomization, dictGet]
    | dict es => simp [validate_pregenerated_randomization, dictGet]
    | noneV => simp [validate_pregenerated_randomization, dictGet]
  · intro s hs
    show (if 1 ≤ (s.length : Int) ∧ (s.length : Int) ≤ 64
        then (Except.ok (some [("id", PyV.str s)]) : Except Err Pgr)
        else .error (.pgrIdLen s.length)) = .error (.pgrIdLen s.length)
    exact if_neg hs

/-- Witness for C5 at concrete inputs: a dict with both keys, and a dict with
neither key, discharge the hypotheses of the universally quantified parts. -/
theorem pregenerated_randomization_spec_witness :
    validate_pregenerated_randomization
        (some (.dict [("date", .str "2024-06-01"), ("id", .str "y")])) = .error .pgrBoth ∧
    validate_pregenerated_randomization (some (.dict [("other", .int 3)]))
      = .error .pgrMissing ∧
    validate_pregenerated_randomization (some (.dict [("date", .str "2024/06/01")]))
      = .error .pgrDateFormat ∧
    validate_pregenerated_randomization (some (.dict [("date", .int 20240601)]))
      = .error .pgrDateType ∧
    validate_pregenerated_randomization (some (.dict [("id", .str "")]))
      = .error (.pgrIdLen 0) := by
  refine ⟨?_, ?_, ?_, ?_, ?_⟩
  · exact pregenerated_randomization_spec.2.1 _ rfl rfl
  · exact pregenerated_randomization_spec.2.2.1 _ rfl rfl
  · exact pregenerated_randomization_spec.2.2.2.1 _ rfl
  · exact pregenerated_randomization_spec.2.2.2.2.1 _ (by intro s h; cases h)
  · exact pregenerated_randomization_spec.2.2.2.2.2.1 _ (by decide)

/-- Claim C10. The randomization-spec validator ignores unrecognized keys when a
recognized key is present: a dict carrying `date` (and not `id`) plus any
other keys succeeds and returns a dict holding only the `date` entry; likewise
for `id`; a dict with neither recognized key fails no matter what else it
holds. -/
theorem pregenerated_randomization_ignores_unknown_keys :
    (∀ (es : List (String × PyV)) (s : String),
      dictGet es "date" = some (.str s) → dictGet es "id" = none → isYMD s = true →
      validate_pregenerated_randomization (some (.dict es))
        = .ok (some [("date", .str s)])) ∧
    (∀ (es : List (String × PyV)) (s : String),
      dictGet es "date" = none → dictGet es "id" = some (.str s) →
      1 ≤ (s.length : Int) → (s.length : Int) ≤ 64 →
      validate_pregenerated_randomization (some (.dict es))
        = .ok (some [("id", .str s)])) ∧
    (∀ es : List (String × PyV), dictGet es "date" = none → dictGet es "id" = none →
      validate_pregenerated_randomization (some (.dict es)) = .error .pgrMissing) := by
  refine ⟨?_, ?_, ?_⟩
  · intro es s hd hi hs
    simp [validate_pregenerated_randomization, hd, hi, hs]
  · intro es s hd hi h1 h64
    simp [validate_pregenerated_randomization, hd, hi, h1, h64]
  · intro es hd hi
    simp [validate_pregenerated_randomization, hd, hi]

/-- Witness for C10: dicts carrying extra unrecognized keys around `date`,
around `id`, and with only unrecognized keys. -/
theorem pregenerated_randomization_ignores_unknown_keys_witness :
    validate_pregenerated_randomization
        (some (.dict [("foo", .int 1), ("date", .str "2024-06-01"), ("bar", .noneV)]))
      = .ok (some [("date", .str "2024-06-01")]) ∧
    validate_pregenerated_randomization
        (some (.dict [("foo", .int 1), ("id", .str "shared-draw")]))
      = .ok (some [("id", .str "shared-draw")]) ∧
    validate_pregenerated_randomization (some (.dict [("foo", .int 1), ("bar", .noneV)]))
      = .error .pgrMissing := by
  refine ⟨?_, ?_, ?_⟩
  · exact pregenerated_randomization_ignores_unknown_keys.1 _ "2024-06-01" rfl rfl rfl
  · exact pregenerated_randomization_ignores_unknown_keys.2.1 _ "shared-draw"
      rfl rfl (by decide) (by decide)
  · exact pregenerated_randomization_ignores_unknown_keys.2.2 _ rfl rfl

/-- Claim C6. The error mapper returns a distinct remediation hint for each of
the codes 400, 401, 402, 403, 413, 429, 503, -32600, -32601, -32602, -32603;
for any other code it returns a fallback string embedding the raw code and the
raw message; diagnostic clauses are appended one per present key in the fixed
order `advisoryDelay`, `bitsLeft`, `requestsLeft` (regardless of the dict's
own order); code 429 with `advisoryDelay = 1500` yields the rate-limit
remediation text together with "1500", and unknown code -1 yields a fallback
containing "-1".  (It is a total Lean function by construction.) -/
theorem map_random_org_error_spec :
    ([map_random_org_error 400 "" none, map_random_org_error 401 "" none,
      map_random_org_error 402 "" none, map_random_org_error 403 "" none,
      map_random_org_error 413 "" none, map_random_org_error 429 "" none,
      map_random_org_error 503 "" none, map_random_org_error (-32600) "" none,
      map_random_org_error (-32601) "" none, map_random_org_error (-32602) "" none,
      map_random_org_error (-32603) "" none] : List String).Nodup ∧
    (∀ (code : Int) (msg : String),
      code ∉ ([400, 401, 402, 403, 413, 429, 503,
        -32600, -32601, -32602, -32603] : List Int) →
      (toString code).data <:+: (map_random_org_error code msg none).data ∧
      msg.data <:+: (map_random_org_error code msg none).data) ∧
    (∀ (code : Int) (msg : String) (va vb vc : PyV),
      map_random_org_error code msg
          (some [("requestsLeft", vc), ("advisoryDelay", va), ("bitsLeft", vb)])
        = String.intercalate " " [(errorHints code).getD (fallbackMsg code msg),
            advisoryClause va, bitsLeftClause vb, requestsLeftClause vc]) ∧
    (∀ (code : Int) (msg : String) (va : PyV),
      map_random_org_error code msg (some [("advisoryDelay", va)])
        = String.intercalate " " [(errorHints code).getD (fallbackMsg code msg),
            advisoryClause va]) ∧
    ("1500".data <:+: (map_random_org_error 429 "Too Many Requests"
        (some [("advisoryDelay", .int 1500)])).data ∧
      "请求过于频繁".data <:+: (map_random_org_error 429 "Too Many Requests"
        (some [("advisoryDelay", .int 1500)])).data) ∧
    "-1".data <:+: (map_random_org_error (-1) "boom" none).data := by
  refine ⟨by decide, ?_, ?_, ?_, ⟨by decide, by decide⟩, by decide⟩
  · intro code msg h
    simp only [List.mem_cons, List.not_mem_nil, or_false] at h
    push_neg at h
    obtain ⟨h1, h2, h3, h4, h5, h6, h7, h8, h9, h10, h11⟩ := h
    have hh : errorHints code = none := by
      simp [errorHints, h1, h2, h3, h4, h5, h6, h7, h8, h9, h10, h11]
    have hmap : map_random_org_error code msg none = fallbackMsg code msg := by
      show String.intercalate " " [(errorHints code).getD (fallbackMsg code msg)]
        = fallbackMsg code msg
      rw [hh]
      rfl
    rw [hmap]
    constructor
    · exact ⟨"调用失败（代码：".data, ("）。原始信息：" ++ msg).data,
        by simp [fallbackMsg, String.data_append, List.append_assoc]⟩
    · exact ⟨("调用失败（代码：" ++ toString code ++ "）。原始信息：").data, [],
        by simp [fallbackMsg, String.data_append, List.append_assoc]⟩
  · intro code msg va vb vc
    rfl
  · intro code msg va
    rfl

/-- Witness for C6: the fallback conjunct applied at the unknown code -1. -/
theorem map_random_org_error_spec_witness :
    (toString (-1 : Int)).data <:+: (map_random_org_error (-1) "boom" none).data ∧
    "boom".data <:+: (map_random_org_error (-1) "boom" none).data :=
  map_random_org_error_spec.2.1 (-1) "boom" (by decide)

/-- Claim C7. For every operation, whenever the validation pipeline fails, the
full tool fails with that very validation error for EVERY RPC function — the
outcome is independent of the network layer, so no network call can influence
(or be required for) a validation failure. -/
theorem validation_errors_precede_rpc :
    (∀ (n mn mx : Int) (repl : PyV) (base : Int) (pgr : Option PyV) (e : Err)
      (rpc : RpcFn), generate_integers_validate n mn mx repl base pgr = .error e →
      generate_integers_tool rpc n mn mx repl base pgr = .error e) ∧
    (∀ (n : Int) (length mn mx repl base : PyV) (pgr : Option PyV) (e : Err)
      (rpc : RpcFn),
      generate_integer_sequences_validate n length mn mx repl base pgr = .error e →
      generate_integer_sequences_tool rpc n length mn mx repl base pgr = .error e) ∧
    (∀ (n dp : Int) (repl : PyV) (pgr : Option PyV) (e : Err) (rpc : RpcFn),
      generate_decimal_fractions_validate n dp repl pgr = .error e →
      generate_decimal_fractions_tool rpc n dp repl pgr = .error e) ∧
    (∀ (n : Int) (mean sd : ℚ) (sig : Int) (pgr : Option PyV) (e : Err) (rpc : RpcFn),
      generate_gaussians_validate n mean sd sig pgr = .error e →
      generate_gaussians_tool rpc n mean sd sig pgr = .error e) ∧
    (∀ (n len : Int) (chars repl : PyV) (pgr : Option PyV) (e : Err) (rpc : RpcFn),
      generate_strings_validate n len chars repl pgr = .error e →
      generate_strings_tool rpc n len chars repl pgr = .error e) ∧
    (∀ (n : Int) (pgr : Option PyV) (e : Err) (rpc : RpcFn),
      generate_uuids_validate n pgr = .error e →
      generate_uuids_tool rpc n pgr = .error e) ∧
    (∀ (n size : Int) (format : String) (pgr : Option PyV) (e : Err) (rpc : RpcFn),
      generate_blobs_validate n size format pgr = .error e →
      generate_blobs_tool rpc n size format pgr = .error e) := by
  refine ⟨?_, ?_, ?_, ?_, ?_, ?_, ?_⟩
  · intro n mn mx repl base pgr e rpc h
    simp [generate_integers_tool, h]
  · intro n length mn mx repl base pgr e rpc h
    simp [generate_integer_sequences_tool, h]
  · intro n dp repl pgr e rpc h
    simp [generate_decimal_fractions_tool, h]
  · intro n mean sd sig pgr e rpc h
    simp [generate_gaussians_tool, h]
  · intro n len chars repl pgr e rpc h
    simp [generate_strings_tool, h]
  · intro n pgr e rpc h
    simp [generate_uuids_tool, h]
  · intro n size format pgr e rpc h
    simp [generate_blobs_tool, h]

/-- Witness for C7: one concrete failing input per operation, against an RPC
stub that would happily answer — the tools still fail with the local
validation error. -/
theorem validation_errors_precede_rpc_witness :
    generate_integers_tool (fun _ _ => .ok .noneV) 0 1 5 (.bool true) 10 none
      = .error (.valueErrorMsg "n 必须在 [1, 1e4] 范围内") ∧
    generate_integer_sequences_tool (fun _ _ => .ok .noneV) 0 (.int 5) (.int 0)
        (.int 4) (.bool true) (.int 10) none
      = .error (.rangeError "n" 1 1000 (.int 0)) ∧
    generate_decimal_fractions_tool (fun _ _ => .ok .noneV) 1 0 (.bool true) none
      = .error (.rangeError "decimalPlaces" 1 14 (.int 0)) ∧
    generate_gaussians_tool (fun _ _ => .ok .noneV) 1 0 1 1 none
      = .error (.rangeError "significantDigits" 2 14 (.int 1)) ∧
    generate_strings_tool (fun _ _ => .ok .noneV) 1 0 (.str "abc") (.bool true) none
      = .error (.rangeError "length" 1 32 (.int 0)) ∧
    generate_uuids_tool (fun _ _ => .ok .noneV) 0 none
      = .error (.rangeError "n" 1 1000 (.int 0)) ∧
    generate_blobs_tool (fun _ _ => .ok .noneV) 1 7 "base64" none
      = .error (.valueErrorMsg "size 必须能被 8 整除（按位数计数）") :=
  ⟨validation_errors_precede_rpc.1 0 1 5 (.bool true) 10 none _ _ rfl,
   validation_errors_precede_rpc.2.1 0 (.int 5) (.int 0) (.int 4) (.bool true)
     (.int 10) none _ _ rfl,
   validation_errors_precede_rpc.2.2.1 1 0 (.bool true) none _ _ rfl,
   validation_errors_precede_rpc.2.2.2.1 1 0 1 1 none _ _ rfl,
   validation_errors_precede_rpc.2.2.2.2.1 1 0 (.str "abc") (.bool true) none _ _ rfl,
   validation_errors_precede_rpc.2.2.2.2.2.1 0 none _ _ rfl,
   validation_errors_precede_rpc.2.2.2.2.2.2 1 7 "base64" none _ _ rfl⟩

/-- Claim C9. `generate_integers` applies no sampling-without-replacement
feasibility check and no boolean-type check on `replacement`: whenever `n`,
`min_value`, `max_value`, `base` and the randomization spec pass their own
checks, validation succeeds for EVERY `replacement` value (boolean or not),
and the RPC call is attempted — an RPC stub that fails is actually consulted
— even when `replacement` is false and `max - min + 1 < n`. -/
theorem generate_integers_no_feasibility_check
    (n mn mx : Int) (repl : PyV) (base : Int) (pgrIn : Option PyV) (p : Pgr)
    (hn1 : 1 ≤ n) (hn2 : n ≤ 10000)
    (hmn1 : -1000000000 ≤ mn) (hmn2 : mn ≤ 1000000000)
    (hmx1 : -1000000000 ≤ mx) (hmx2 : mx ≤ 1000000000) (hle : mn ≤ mx)
    (hbase : base = 2 ∨ base = 8 ∨ base = 10 ∨ base = 16)
    (hpgr : validate_pregenerated_randomization pgrIn = .ok p) :
    generate_integers_validate n mn mx repl base pgrIn = .ok p ∧
    generate_integers_tool (fun _ _ => .error (.typeError "rpc reached"))
      n mn mx repl base pgrIn = .error (.typeError "rpc reached") := by
  have hv : generate_integers_validate n mn mx repl base pgrIn = .ok p := by
    unfold generate_integers_validate
    rw [if_neg (not_not_intro ⟨hn1, hn2⟩), if_neg (not_not_intro ⟨hmn1, hmn2⟩),
      if_neg (not_not_intro ⟨hmx1, hmx2⟩), if_neg (not_lt.mpr hle),
      if_neg (not_not_intro hbase)]
    simp [hpgr]
  refine ⟨hv, ?_⟩
  simp [generate_integers_tool, hv]

/-- Witness for C9 at the claim's example: `n = 10, min = 1, max = 5,
replacement = false` (domain size 5 < n) passes local validation and reaches
the RPC. -/
theorem generate_integers_no_feasibility_check_witness :
    generate_integers_validate 10 1 5 (.bool false) 10 none = .ok none ∧
    generate_integers_tool (fun _ _ => .error (.typeError "rpc reached"))
      10 1 5 (.bool false) 10 none = .error (.typeError "rpc reached") :=
  generate_integers_no_feasibility_check 10 1 5 (.bool false) 10 none none
    (by decide) (by decide) (by decide) (by decide) (by decide) (by decide)
    (by decide) (by decide) rfl

/-- Claim C3. For `generate_integer_sequences` with uniform scalar fields
`min = 0`, `max = 4`, `replacement = false` (and base 10, no randomization
spec), for every valid sequence count `n`: `length = 5` passes validation
(domain size 5 ≥ length 5) while `length = 6` fails with the
infeasible-sampling error naming sequence index 0 (domain 5 < length 6). -/
theorem uniform_feasibility_boundary (n : Int) (h1 : 1 ≤ n) (h2 : n ≤ 1000) :
    generate_integer_sequences_validate n (.int 5) (.int 0) (.int 4) (.bool false)
      (.int 10) none = .ok none ∧
    generate_integer_sequences_validate n (.int 6) (.int 0) (.int 4) (.bool false)
      (.int 10) none = .error (.infeasibleAt 0 5 (.int 6)) := by
  have hn : validate_int_range (.int n) "n" 1 1000 = .ok () := by
    show (if 1 ≤ n ∧ n ≤ 1000 then (Except.ok () : Except Err Unit)
      else .error (.rangeError "n" 1 1000 (.int n))) = .ok ()
    rw [if_pos ⟨h1, h2⟩]
  have hmin : ensure_scalar_or_list "min" (.int 0) n
      (some fun v nm => validate_int_range v nm (-1000000000) 1000000000)
      (some fun v nm => validate_int_range v nm (-1000000000) 1000000000)
      = .ok (true, .int 0) := rfl
  have hmax : ensure_scalar_or_list "max" (.int 4) n
      (some fun v nm => validate_int_range v nm (-1000000000) 1000000000)
      (some fun v nm => validate_int_range v nm (-1000000000) 1000000000)
      = .ok (true, .int 4) := rfl
  have hrep : ensure_scalar_or_list "replacement" (.bool false) n
      (some validate_bool) (some validate_bool) = .ok (true, .bool false) := rfl
  have hbase : ensure_scalar_or_list "base" (.int 10) n
      (some validate_base) (some validate_base) = .ok (true, .int 10) := rfl
  constructor
  · have hlen : ensure_scalar_or_list "length" (.int 5) n
        (some fun v nm => validate_int_range v nm 1 10000)
        (some fun v nm => validate_int_range v nm 1 10000) = .ok (true, .int 5) := rfl
    have htot : ¬ ¬ (1 ≤ n * 5 ∧ n * 5 ≤ 10000) := by omega
    have hfeas : validate_no_replacement_feasible true (.int 5) (.int 0) (.int 4)
        (.bool false) n.toNat = .ok () := by
      show (if (List.replicate n.toNat (PyV.bool false)).length ≠ n.toNat
          then (Except.error Err.replListLen : Except Err Unit)
          else feasSome (.list (List.replicate n.toNat (.int 5)))
            (.list (List.replicate n.toNat (.int 0)))
            (.list (List.replicate n.toNat (.int 4)))
            (.list (List.replicate n.toNat (.bool false)))
            (List.range n.toNat)) = .ok ()
      rw [List.length_replicate, if_neg (by simp)]
      exact feasSome_replicate_false_ok (by omega) (List.range n.toNat)
        (fun i hi => List.mem_range.mp hi)
    unfold generate_integer_sequences_validate
    rw [hn]
    simp only [except_bind_ok]
    rw [hlen]
    simp only [except_bind_ok, if_true, pyToInt, asIntNum]
    rw [if_neg htot]
    simp only [except_bind_ok, except_pure]
    rw [hmin]
    simp only [except_bind_ok]
    rw [hmax]
    simp only [except_bind_ok, if_true, List.zip_replicate, min_self]
    rw [minMaxLoop_replicate_ok (show pyGtV (.int 0) (.int 4) = .ok false from rfl)]
    simp only [except_bind_ok]
    rw [hrep]
    simp only [except_bind_ok]
    rw [hbase]
    simp only [except_bind_ok]
    rw [hfeas]
    simp only [except_bind_ok, except_pure]
    rfl
  · have hlen : ensure_scalar_or_list "length" (.int 6) n
        (some fun v nm => validate_int_range v nm 1 10000)
        (some fun v nm => validate_int_range v nm 1 10000) = .ok (true, .int 6) := rfl
    have htot : ¬ ¬ (1 ≤ n * 6 ∧ n * 6 ≤ 10000) := by omega
    have hfeas : validate_no_replacement_feasible true (.int 6) (.int 0) (.int 4)
        (.bool false) n.toNat = .error (.infeasibleAt 0 5 (.int 6)) := by
      show (if (List.replicate n.toNat (PyV.bool false)).length ≠ n.toNat
          then (Except.error Err.replListLen : Except Err Unit)
          else feasSome (.list (List.replicate n.toNat (.int 6)))
            (.list (List.replicate n.toNat (.int 0)))
            (.list (List.replicate n.toNat (.int 4)))
            (.list (List.replicate n.toNat (.bool false)))
            (List.range n.toNat)) = .error (.infeasibleAt 0 5 (.int 6))
      rw [List.length_replicate, if_neg (by simp)]
      exact @feasSome_replicate_false_err 6 0 4 n.toNat (by decide) (by omega)
    unfold generate_integer_sequences_validate
    rw [hn]
    simp only [except_bind_ok]
    rw [hlen]
    simp only [except_bind_ok, if_true, pyToInt, asIntNum]
    rw [if_neg htot]
    simp only [except_bind_ok, except_pure]
    rw [hmin]
    simp only [except_bind_ok]
    rw [hmax]
    simp only [except_bind_ok, if_true, List.zip_replicate, min_self]
    rw [minMaxLoop_replicate_ok (show pyGtV (.int 0) (.int 4) = .ok false from rfl)]
    simp only [except_bind_ok]
    rw [hrep]
    simp only [except_bind_ok]
    rw [hbase]
    simp only [except_bind_ok]
    rw [hfeas]
    simp only [except_bind_err]
    rfl

/-- Witness for C3 at `n = 3`. -/
theorem uniform_feasibility_boundary_witness :
    generate_integer_sequences_validate 3 (.int 5) (.int 0) (.int 4) (.bool false)
      (.int 10) none = .ok none ∧
    generate_integer_sequences_validate 3 (.int 6) (.int 0) (.int 4) (.bool false)
      (.int 10) none = .error (.infeasibleAt 0 5 (.int 6)) :=
  uniform_feasibility_boundary 3 (by decide) (by decide)

/-- Claim C4. `generate_integer_sequences` rejects any call whose per-sequence
lengths sum to more than 10000 — for list-form lengths the sum of the items,
and for a scalar length the product `n * length` — regardless of all later
fields; concretely, `n = 2` with `length = [6000, 5000]` fails (sum 11000)
while `length = [5000, 5000]` passes the whole validation. -/
theorem lengths_total_cap :
    (∀ (n : Int) (lv : List PyV) (mn mx repl base : PyV) (pgr : Option PyV) (S : Int),
      1 ≤ n → n ≤ 1000 → (lv.length : Int) = n →
      (∀ v ∈ lv, ∀ nm : String, validate_int_range v nm 1 10000 = .ok ()) →
      pySum lv = .ok S → 10000 < S →
      generate_integer_sequences_validate n (.list lv) mn mx repl base pgr
        = .error (.lengthsTotal S)) ∧
    (∀ (n L : Int) (mn mx repl base : PyV) (pgr : Option PyV),
      1 ≤ n → n ≤ 1000 → 1 ≤ L → L ≤ 10000 → 10000 < n * L →
      generate_integer_sequences_validate n (.int L) mn mx repl base pgr
        = .error (.lengthsTotal (n * L))) ∧
    (generate_integer_sequences_validate 2 (.list [.int 6000, .int 5000]) (.int 0)
      (.int 100) (.bool true) (.int 10) none = .error (.lengthsTotal 11000)) ∧
    (generate_integer_sequences_validate 2 (.list [.int 5000, .int 5000]) (.int 0)
      (.int 100) (.bool true) (.int 10) none = .ok none) := by
  refine ⟨?_, ?_, rfl, rfl⟩
  · intro n lv mn mx repl base pgr S h1 h2 hlen hvals hsum hS
    have hn : validate_int_range (.int n) "n" 1 1000 = .ok () := by
      show (if 1 ≤ n ∧ n ≤ 1000 then (Except.ok () : Except Err Unit)
        else .error (.rangeError "n" 1 1000 (.int n))) = .ok ()
      rw [if_pos ⟨h1, h2⟩]
    have hloop : itemLoop (fun v nm => validate_int_range v nm 1 10000) "length" 0 lv
        = .ok () := itemLoop_ok hvals 0
    have hens : ensure_scalar_or_list "length" (.list lv) n
        (some fun v nm => validate_int_range v nm 1 10000)
        (some fun v nm => validate_int_range v nm 1 10000) = .ok (false, .list lv) := by
      show (if (lv.length : Int) ≠ n
          then (Except.error (Err.listLen "length" n) : Except Err (Bool × PyV))
          else match itemLoop (fun v nm => validate_int_range v nm 1 10000)
              "length" 0 lv with
            | .ok _ => .ok (false, .list lv)
            | .error e => .error e) = .ok (false, .list lv)
      rw [if_neg (not_ne_iff.mpr hlen), hloop]
    unfold generate_integer_sequences_validate
    rw [hn]
    simp only [except_bind_ok]
    rw [hens]
    simp only [except_bind_ok, Bool.false_eq_true, if_false, asPyList]
    rw [hsum]
    simp only [except_bind_ok]
    rw [if_pos (fun hc => absurd hc.2 (not_le.mpr hS))]
    rfl
  · intro n L mn mx repl base pgr h1 h2 hL1 hL2 hS
    have hn : validate_int_range (.int n) "n" 1 1000 = .ok () := by
      show (if 1 ≤ n ∧ n ≤ 1000 then (Except.ok () : Except Err Unit)
        else .error (.rangeError "n" 1 1000 (.int n))) = .ok ()
      rw [if_pos ⟨h1, h2⟩]
    have hf : validate_int_range (.int L) "length" 1 10000 = .ok () := by
      show (if 1 ≤ L ∧ L ≤ 10000 then (Except.ok () : Except Err Unit)
        else .error (.rangeError "length" 1 10000 (.int L))) = .ok ()
      rw [if_pos ⟨hL1, hL2⟩]
    have hens : ensure_scalar_or_list "length" (.int L) n
        (some fun v nm => validate_int_range v nm 1 10000)
        (some fun v nm => validate_int_range v nm 1 10000) = .ok (true, .int L) := by
      show (match validate_int_range (.int L) "length" 1 10000 with
          | .ok _ => (Except.ok (true, PyV.int L) : Except Err (Bool × PyV))
          | .error e => .error e) = .ok (true, .int L)
      rw [hf]
    unfold generate_integer_sequences_validate
    rw [hn]
    simp only [except_bind_ok]
    rw [hens]
    simp only [except_bind_ok, if_true, pyToInt, asIntNum]
    rw [if_pos (fun hc => absurd hc.2 (not_le.mpr hS))]
    rfl

/-- Witness for C4: the failing pair `[6000, 5000]` obtained by applying the
list-form part, and the scalar form at `n = 3, length = 5000`. -/
theorem lengths_total_cap_witness :
    generate_integer_sequences_validate 2 (.list [.int 6000, .int 5000]) (.int 0)
      (.int 100) (.bool true) (.int 10) none = .error (.lengthsTotal 11000) ∧
    generate_integer_sequences_validate 3 (.int 5000) (.int 0) (.int 100)
      (.bool true) (.int 10) none = .error (.lengthsTotal 15000) := by
  constructor
  · refine lengths_total_cap.1 2 [.int 6000, .int 5000] (.int 0) (.int 100)
      (.bool true) (.int 10) none 11000 (by decide) (by decide) (by decide)
      ?_ rfl (by decide)
    intro v hv nm
    simp only [List.mem_cons, List.not_mem_nil, or_false] at hv
    rcases hv with rfl | rfl <;> rfl
  · exact lengths_total_cap.2.1 3 5000 (.int 0) (.int 100) (.bool true) (.int 10)
      none (by decide) (by decide) (by decide) (by decide) (by decide)

/-- Claim C1, evaluated at the failing input. The feasibility check does
NOT normalize the four fields independently: it replicates all four according
to whether `length` alone is scalar.  With scalar `length = 2`, scalar
`min = max = 0` and per-sequence `replacement = [false, false]` (n = 2),
every per-sequence flag is `false` and the domain size is 1 < 2, yet the
whole validation succeeds (each wrapped `replacement` entry becomes a nested
list, so `R[i] is False` never fires) and the RPC stub is reached; and in the
opposite mixed form — list `length`, scalar `min`/`max`, scalar
`replacement = false` — the check crashes with a Python `TypeError` (`int`
not subscriptable) instead of performing the domain comparison. -/
theorem feasibility_mixed_form_divergence :
    generate_integer_sequences_validate 2 (.int 2) (.int 0) (.int 0)
      (.list [.bool false, .bool false]) (.int 10) none = .ok none ∧
    generate_integer_sequences_tool (fun _ _ => .error (.typeError "rpc reached"))
      2 (.int 2) (.int 0) (.int 0) (.list [.bool false, .bool false]) (.int 10) none
      = .error (.typeError "rpc reached") ∧
    validate_no_replacement_feasible true (.int 2) (.int 0) (.int 0)
      (.list [.bool false, .bool false]) 2 = .ok () ∧
    generate_integer_sequences_validate 2 (.list [.int 2, .int 2]) (.int 0) (.int 0)
      (.bool false) (.int 10) none = .error (.typeError "object is not subscriptable") :=
  ⟨rfl, rfl, rfl, rfl⟩

end RandomOrg
